import Mathlib

/-!
Verification of the media-webhook notification pipeline
(normalization, deduplication, enrichment, batching/dispatch).

The Python source is shallowly embedded: dynamic dict-shaped payloads
become association lists over a JSON-like value type `Val`; exceptions
that the source catches become `Option`; wall-clock times become `Int`
seconds; cryptographic hashes (`hashlib.sha256`/`md5`) are abstracted by
keeping the exact pre-image that the source feeds to the hash, which is
sound for all equality statements because a hash is a function of its
pre-image.
-/

set_option linter.unusedVariables false

/-- A Python/JSON value as it appears in the webhook payload dictionaries. -/
inductive Val where
  | str (s : String)
  | int (n : Int)
  | bool (b : Bool)
  | none
  | list (l : List Val)
  | dict (entries : List (String × Val))
deriving Repr

/-- Structural decidable equality for `Val` (Python `==` on JSON-like data). -/
def Val.beq : Val → Val → Bool
  | .str a, .str b => a == b
  | .int a, .int b => a == b
  | .bool a, .bool b => a == b
  | .none, .none => true
  | .list a, .list b => beqList a b
  | .dict a, .dict b => beqDict a b
  | _, _ => false
where
  beqList : List Val → List Val → Bool
    | [], [] => true
    | x :: xs, y :: ys => Val.beq x y && beqList xs ys
    | _, _ => false
  beqDict : List (String × Val) → List (String × Val) → Bool
    | [], [] => true
    | (k, v) :: xs, (k2, v2) :: ys => k == k2 && Val.beq v v2 && beqDict xs ys
    | _, _ => false

mutual
theorem Val.beq_iff : ∀ a b : Val, Val.beq a b = true ↔ a = b
  | .str a, b => by cases b <;> simp [Val.beq]
  | .int a, b => by cases b <;> simp [Val.beq]
  | .bool a, b => by cases b <;> simp [Val.beq]
  | .none, b => by cases b <;> simp [Val.beq]
  | .list a, b => by
      cases b <;> simp [Val.beq]
      exact Val.beq_iff_list a _
  | .dict a, b => by
      cases b <;> simp [Val.beq]
      exact Val.beq_iff_dict a _

theorem Val.beq_iff_list : ∀ a b : List Val, Val.beq.beqList a b = true ↔ a = b
  | [], b => by cases b <;> simp [Val.beq.beqList]
  | x :: xs, b => by
      cases b with
      | nil => simp [Val.beq.beqList]
      | cons y ys =>
          simp only [Val.beq.beqList, Bool.and_eq_true, List.cons.injEq]
          exact and_congr (Val.beq_iff x y) (Val.beq_iff_list xs ys)

theorem Val.beq_iff_dict : ∀ a b : List (String × Val),
    Val.beq.beqDict a b = true ↔ a = b
  | [], b => by cases b <;> simp [Val.beq.beqDict]
  | (k, v) :: xs, b => by
      cases b with
      | nil => simp [Val.beq.beqDict]
      | cons y ys =>
          obtain ⟨k2, v2⟩ := y
          simp only [Val.beq.beqDict, Bool.and_eq_true, List.cons.injEq, Prod.mk.injEq,
            beq_iff_eq, Val.beq_iff v v2, Val.beq_iff_dict xs ys, and_assoc]
end

instance : DecidableEq Val := fun a b =>
  decidable_of_iff (Val.beq a b = true) (Val.beq_iff a b)

/-- A Python dict, modelled as an association list of string keys
(Python dicts have unique keys and preserve insertion order). -/
abbrev PyDict := List (String × Val)

/-- Python `d[k]` or `d.get(k)` with no default: the first value stored
under key `k`, if any. -/
def dictLookup : PyDict → String → Option Val
  | [], _ => Option.none
  | (k2, v) :: t, k => if k2 == k then some v else dictLookup t k

/-- Python `d.get(k, default)`. -/
def dictGet (d : PyDict) (k : String) (default : Val) : Val :=
  (dictLookup d k).getD default

/-- Python `k in d` (key membership). -/
def dictMem (d : PyDict) (k : String) : Bool :=
  (dictLookup d k).isSome

/-- Python `d[k] = v`: replace the first binding of `k` in place, or
append if absent. -/
def dictSet (d : PyDict) (k : String) (v : Val) : PyDict :=
  match d with
  | [] => [(k, v)]
  | (k2, v2) :: t => if k2 = k then (k, v) :: t else (k2, v2) :: dictSet t k v

/-- Python `d.update(u)`: set every binding of `u` into `d`, in order. -/
def dictUpdate (d u : PyDict) : PyDict :=
  u.foldl (fun acc kv => dictSet acc kv.1 kv.2) d

/-- The keys of a dict, in order. -/
def dictKeys (d : PyDict) : List String := d.map (·.1)

/-- Python truthiness (`bool(v)`): empty strings/containers, `0`,
`False` and `None` are falsy. -/
def truthy : Val → Bool
  | .str s => !(s == "")
  | .int n => !(n == 0)
  | .bool b => b
  | .none => false
  | .list l => !l.isEmpty
  | .dict d => !d.isEmpty

/-- Python `a or b` on values: returns `a` when truthy, else `b`. -/
def pyOr (a b : Val) : Val := if truthy a then a else b

/-- Python `s.lower()` (ASCII case folding, the case exercised here). -/
def pyLower (s : String) : String := String.mk (s.data.map Char.toLower)

/-- Python `s.strip()`: drop leading and trailing whitespace. -/
def pyStripStr (s : String) : String :=
  String.mk (((s.data.dropWhile Char.isWhitespace).reverse.dropWhile
    Char.isWhitespace).reverse)

/-- Python `s.endswith(suffix)`. -/
def pyEndsWith (s suffix : String) : Bool := suffix.data.isSuffixOf s.data

/-- Python `s.rstrip("/")`. -/
def pyRstripSlashStr (s : String) : String :=
  String.mk ((s.data.reverse.dropWhile (fun c => c == '/')).reverse)

/-- The maximal whitespace-free runs of a character list (the word list
used for `re.sub`-style whitespace collapsing). `cur` accumulates the
current word in reverse. -/
def wsWords : List Char → List Char → List (List Char)
  | [], cur => if cur.isEmpty then [] else [cur.reverse]
  | c :: rest, cur =>
      if c.isWhitespace then
        if cur.isEmpty then wsWords rest [] else cur.reverse :: wsWords rest []
      else wsWords rest (c :: cur)

/-- Python `repr(v)` (approximated for scalar values; containers are
rendered recursively like Python does). -/
def pyRepr : Val → String
  | .str s => "'" ++ s ++ "'"
  | .int n => toString n
  | .bool b => if b then "True" else "False"
  | .none => "None"
  | .list l => "[" ++ String.intercalate ", " (l.attach.map fun x => pyRepr x.1) ++ "]"
  | .dict m => "\x7b" ++ String.intercalate ", "
      (m.attach.map fun kv => "'" ++ kv.1.1 ++ "': " ++ pyRepr kv.1.2) ++ "\x7d"
decreasing_by
  · have h := List.sizeOf_lt_of_mem x.2
    simp only [Val.list.sizeOf_spec]
    omega
  · have h1 := List.sizeOf_lt_of_mem kv.2
    have h2 : sizeOf kv.1.2 < sizeOf kv.1 := by
      obtain ⟨⟨a, b⟩, hm⟩ := kv
      simp only [Prod.mk.sizeOf_spec]
      omega
    simp only [Val.dict.sizeOf_spec]
    omega

/-- Python `str(v)`. -/
def pyStr : Val → String
  | .str s => s
  | v => pyRepr v

/-- Python `v.strip()`: defined only on `str` values; on any other value
the attribute access raises (`Option.none` models the exception). -/
def valStrip : Val → Option String
  | .str s => some (pyStripStr s)
  | _ => Option.none

/-- Python `isinstance(v, int)` semantics for numeric use: `int` values,
and `bool` values (a `bool` is an `int` in Python, `True == 1`). -/
def pyIntVal : Val → Option Int
  | .int n => some n
  | .bool b => some (if b then 1 else 0)
  | _ => Option.none

/-- Python `s.isdigit()` for ASCII digit strings. -/
def pyIsDigit (s : String) : Bool :=
  !(s == "") && s.toList.all Char.isDigit

/-! ## Deduplication (main.py lines 340-453) -/

/-- The pre-image of the request hash. `_calculate_ani_rss_hash` and
`_calculate_standard_hash` each build a small dict and feed its JSON
serialization to `hashlib.sha256`; we keep that dict (the `md5` digests of
text content are represented by the text itself). Two payloads get the
same SHA-256 digest exactly when they build the same pre-image. -/
inductive ReqHash where
  | aniMsg (textContent : String)
  | aniTemplate (template : String)
  | aniOther (wholeDict : PyDict)
  | standard (hashData : List (String × String))
  | fallback (filteredData : PyDict)
deriving DecidableEq, Repr

/-- main.py 375-377 `_is_ani_rss_data`. -/
def is_ani_rss_data (d : PyDict) : Bool :=
  dictMem d "meassage" || dictMem d "text_template"

/-- The `for msg in messages` loop of `_calculate_ani_rss_hash`
(main.py 385-389): the text of the first dict entry whose `type` is
`"text"`, the empty string when the loop finds none. Iterating a string
or a dict yields strings (never dicts), so those give `""`; iterating a
non-iterable value raises `TypeError` (`Option.none`), and a non-string
`text` value later raises at `.encode()`. -/
def firstTextContent (messages : Val) : Option String :=
  match messages with
  | .list msgs => go msgs
  | .str _ => some ""
  | .dict _ => some ""
  | _ => Option.none
where
  go : List Val → Option String
    | [] => some ""
    | .dict m :: rest =>
        if dictGet m "type" Val.none = .str "text" then
          match dictGet m "data" (.dict []) with
          | .dict td =>
              match dictGet td "text" (.str "") with
              | .str t => some t
              | _ => Option.none
          | _ => Option.none
        else go rest
    | _ :: rest => go rest

/-- main.py 379-411 `_calculate_ani_rss_hash` (`Option.none` models an
exception, which `_calculate_request_hash` turns into a `None` hash). -/
def calculate_ani_rss_hash (d : PyDict) : Option ReqHash :=
  if dictMem d "meassage" then
    (firstTextContent (dictGet d "meassage" (.list []))).map ReqHash.aniMsg
  else if dictMem d "text_template" then
    match dictGet d "text_template" (.str "") with
    | .str s => some (ReqHash.aniTemplate s)
    | _ => Option.none
  else
    some (ReqHash.aniOther d)

/-- The fields `_calculate_standard_hash` excludes from its fallback
serialization (main.py 431-434). -/
def excludedFields : List String :=
  ["image_url", "timestamp", "raw_message", "headers",
   "request_time", "processed_time", "cache_time"]

/-- main.py 413-442 `_calculate_standard_hash`: a sorted-keys JSON dict of
the six core identity fields with empty values removed; if all six are
empty, a serialization of the payload without the excluded fields and
without any `*_url` key. `Option.none` models the `AttributeError` that
`.strip()` raises on a non-string value. -/
def calculate_standard_hash (d : PyDict) : Option ReqHash := do
  let seriesName ← valStrip (dictGet d "series_name" (.str ""))
  let itemName ← valStrip (dictGet d "item_name" (.str ""))
  let seasonNumber := pyStripStr (pyStr (dictGet d "season_number" (.str "")))
  let episodeNumber := pyStripStr (pyStr (dictGet d "episode_number" (.str "")))
  let itemType ← valStrip (dictGet d "item_type" (.str ""))
  let year := pyStripStr (pyStr (dictGet d "year" (.str "")))
  let hashData :=
    [("series_name", seriesName), ("item_name", itemName),
     ("season_number", seasonNumber), ("episode_number", episodeNumber),
     ("item_type", itemType), ("year", year)].filter (fun kv => !(kv.2 == ""))
  if hashData.isEmpty then
    let filteredData := d.filter (fun kv =>
      !(excludedFields.contains kv.1) && !(pyEndsWith kv.1 "_url"))
    pure (ReqHash.fallback filteredData)
  else
    pure (ReqHash.standard hashData)

/-- main.py 363-373 `_calculate_request_hash`: route by source, catching
any exception as a `None` hash. -/
def calculate_request_hash (d : PyDict) : Option ReqHash :=
  if is_ani_rss_data d then calculate_ani_rss_hash d
  else calculate_standard_hash d

/-- main.py 444-453 `_cleanup_expired_cache`: delete every entry whose
expiry time is strictly below `now`. The TTL cache maps a request hash to
its expiry instant. -/
def cleanup_expired_cache (now : Int) (cache : List (ReqHash × Int)) :
    List (ReqHash × Int) :=
  cache.filter (fun e => !(e.2 < now))

/-- main.py 340-361 `_is_duplicate_request`: compute the hash (`None`
means not-a-duplicate without caching), purge expired entries, report a
hit if the hash is cached, else record it with expiry `now + ttl`.
Returns the verdict and the updated cache. -/
def is_duplicate_request (ttl now : Int) (cache : List (ReqHash × Int))
    (d : PyDict) : Bool × List (ReqHash × Int) :=
  match calculate_request_hash d with
  | Option.none => (false, cache)
  | some h =>
      if ((cleanup_expired_cache now cache).find? (fun e => e.1 == h)).isSome then
        (true, cleanup_expired_cache now cache)
      else
        (false, cleanup_expired_cache now cache ++ [(h, now + ttl)])

/-! ## Processors (src/processors, src/media/processors) -/

/-- base_processor.py 59-71 `safe_get_runtime`: convert an
Emby/Jellyfin tick count (100-nanosecond units) to a minutes string.
The guard is Python `if runtime_ticks and isinstance(runtime_ticks,
(int, float)) and runtime_ticks > 0`; a Python `bool` passes the
`isinstance` check with value 0/1. -/
def safe_get_runtime (runtimeTicks : Val) : String :=
  if truthy runtimeTicks then
    match pyIntVal runtimeTicks with
    | some n =>
        if 0 < n then
          let runtimeMinutes := n / 600000000
          if 0 < runtimeMinutes then toString runtimeMinutes ++ "分钟" else ""
        else ""
    | Option.none => ""
  else ""

/-- base_processor.py 46-57 `clean_text`: HTML-unescape then collapse
whitespace runs and strip. `unescape` stands for the Python stdlib
`html.unescape` collaborator; calling it on a truthy non-string raises
(`Option.none`). -/
def clean_text (unescape : String → String) (text : Val) : Option String :=
  match text with
  | .str s =>
      if s = "" then some ""
      else some (String.intercalate " "
        ((wsWords (unescape s).data []).map String.mk))
  | v => if truthy v then Option.none else some ""

/-- base_processor.py 77-90 `create_standard_data`: the canonical
Notification dict. `season_number`, `episode_number` and `year` are
stringified when truthy, else set to `""`. -/
def create_standard_data (itemType seriesName itemName seasonNumber episodeNumber year
    overview runtime imageUrl sourceData : Val) : PyDict :=
  [("item_type", itemType),
   ("series_name", seriesName),
   ("item_name", itemName),
   ("season_number", if truthy seasonNumber then .str (pyStr seasonNumber) else .str ""),
   ("episode_number", if truthy episodeNumber then .str (pyStr episodeNumber) else .str ""),
   ("year", if truthy year then .str (pyStr year) else .str ""),
   ("overview", overview),
   ("runtime", runtime),
   ("image_url", imageUrl),
   ("source_data", sourceData)]

/-- base_processor.py 92-103 `validate_standard_data`: accept when at
least one of the stripped `series_name`/`item_name` is non-empty.
`.strip()` on a non-string value raises (`Option.none`), which the
caller's `except` turns into a rejection. -/
def validate_standard_data (d : PyDict) : Option Bool := do
  let seriesName ← valStrip (dictGet d "series_name" (.str ""))
  let itemName ← valStrip (dictGet d "item_name" (.str ""))
  pure (!(seriesName == "") || !(itemName == ""))

/-- Python `s.rstrip("/")` on a value: only strings have `rstrip`. -/
def valRstripSlash : Val → Option String
  | .str s => some (pyRstripSlashStr s)
  | _ => Option.none

/-- emby_processor.py 32-108 `EmbyProcessor.convert_to_standard`.
Any exception inside the `try` (e.g. `.get` on a non-dict `Item` or
`Server`, or `clean_text` on a truthy non-string) hits the `except`
and returns the empty dict. -/
def emby_convert_to_standard (unescape : String → String) (data : PyDict) : PyDict :=
  match dictGet data "Item" (.dict []) with
  | .dict item =>
      let itemType := dictGet item "Type" (.str "Unknown")
      let itemName := dictGet item "Name" (.str "")
      let (seriesName, seasonNumber, episodeNumber) :=
        if itemType = .str "Episode" then
          (dictGet item "SeriesName" (.str ""),
           dictGet item "ParentIndexNumber" (.str ""),
           dictGet item "IndexNumber" (.str ""))
        else if itemType = .str "Season" then
          (dictGet item "SeriesName" (.str ""),
           dictGet item "IndexNumber" (.str ""),
           .str "")
        else if itemType = .str "Series" then
          (itemName, .str "", .str "")
        else
          (.str "", .str "", .str "")
      let year := dictGet item "ProductionYear" (.str "")
      match clean_text unescape (dictGet item "Overview" (.str "")) with
      | Option.none => []
      | some overview =>
          let runtime := safe_get_runtime (dictGet item "RunTimeTicks" (.int 0))
          match dictGet item "ImageTags" (.dict []) with
          | .dict imageTags =>
              let primaryTag := dictGet imageTags "Primary" Val.none
              let imageUrl : Option String :=
                if truthy primaryTag then
                  match dictGet data "Server" (.dict []) with
                  | .dict server =>
                      let serverUrl := dictGet server "Url" (.str "")
                      let itemId := dictGet item "Id" (.str "")
                      if truthy serverUrl && truthy itemId then
                        match valRstripSlash serverUrl with
                        | some su =>
                            some (su ++ "/Items/" ++ pyStr itemId ++ "/Images/Primary")
                        | Option.none => Option.none
                      else some ""
                  | _ => Option.none
                else some ""
              match imageUrl with
              | Option.none => []
              | some iu =>
                  create_standard_data itemType seriesName itemName
                    seasonNumber episodeNumber year
                    (.str overview) (.str runtime) (.str iu) (.str "emby")
          | _ => []
  | _ => []

/-- processor_manager.py 63-96 `ProcessorManager.convert_to_standard`,
for a processor whose conversion function is `convert`: reject falsy
results, reject results failing `validate_standard_data` (an exception
inside validation is caught by the outer `except` and also yields the
empty dict). -/
def manager_convert_to_standard (convert : PyDict → PyDict) (d : PyDict) : PyDict :=
  let result := convert d
  if result.isEmpty then []
  else
    match validate_standard_data result with
    | some true => result
    | some false => []
    | Option.none => []

/-- media/processors/generic_processor.py 87-104: the runtime-extraction
step of `GenericProcessor.convert_to_standard`. The first truthy of
`RunTimeTicks`/`runtime_ticks`/`duration` is fed to `safe_get_runtime`
(tick semantics); otherwise a truthy `runtime` value is used as plain
minutes: a digit string is kept as-is, a number is passed through
`int(...)`. -/
def generic_extract_runtime (data : PyDict) : String :=
  let runtimeTicks :=
    pyOr (dictGet data "RunTimeTicks" Val.none)
      (pyOr (dictGet data "runtime_ticks" Val.none)
        (pyOr (dictGet data "duration" Val.none) (.int 0)))
  if truthy runtimeTicks then
    safe_get_runtime runtimeTicks
  else if truthy (dictGet data "runtime" Val.none) then
    match dictGet data "runtime" Val.none with
    | .str s => if pyIsDigit s then s ++ "分钟" else ""
    | .int n => toString n ++ "分钟"
    | .bool b => toString (if b then (1 : Int) else 0) ++ "分钟"
    | _ => ""
  else ""

/-! ## Enrichment manager and persistent cache
(src/media/enrichment/enrichment_manager.py, src/media/cache_manager.py) -/

/-- An enrichment provider (base_provider contract): a priority, a name,
and an `enrich_media_data` coroutine that either returns a dict or
raises (`Except.error`). -/
structure Provider where
  priority : Int
  name : String
  enrich : PyDict → Except Unit PyDict

/-- The relation `enrichment_manager.py:71` sorts by
(`key=lambda p: p.priority`, Python's stable sort). -/
def priorityLE (a b : Provider) : Prop := a.priority ≤ b.priority

instance : DecidableRel priorityLE := fun a b => Int.decLe a.priority b.priority

instance : IsTotal Provider priorityLE := ⟨fun a b => Int.le_total a.priority b.priority⟩

instance : IsTrans Provider priorityLE := ⟨fun _ _ _ => Int.le_trans⟩

/-- enrichment_manager.py 43-72 `_initialize_providers`, reduced to its
ordering effect: the configured providers sorted ascending by priority
(insertion sort agrees with Python's stable `list.sort` on any list). -/
def initialize_providers (configured : List Provider) : List Provider :=
  configured.insertionSort priorityLE

/-- The persistent cache key (`_generate_cache_key`). An external
provider ID gives `pid platform idString`; the fallback is the md5 of
`(name, type, year)`, represented by its pre-image string. -/
inductive CacheKey where
  | pid (platform idString : String)
  | nameHash (keyStr : String)
deriving DecidableEq, Repr

/-- The `p_ids.get(platform) or p_ids.get(platform.capitalize()) or
p_ids.get(platform.lower())` probe of `_generate_cache_key`
(enrichment_manager.py 141-144). -/
def providerIdProbe (pids : PyDict) (plat capKey lowKey : String) : Val :=
  pyOr (dictGet pids plat Val.none)
    (pyOr (dictGet pids capKey Val.none) (dictGet pids lowKey Val.none))

/-- enrichment_manager.py 133-149 `_generate_cache_key`. A truthy
non-dict `provider_ids` raises at `.get` (`Option.none`, caught by the
caller's `except`). -/
def generate_cache_key (d : PyDict) : Option CacheKey :=
  let itemName := dictGet d "item_name" (.str "")
  let itemType := dictGet d "item_type" (.str "")
  let year := dictGet d "year" (.str "")
  let pIds := dictGet d "provider_ids" (.dict [])
  let fallbackKey : CacheKey :=
    .nameHash (pyStripStr (pyLower
      (pyStr itemName ++ "_" ++ pyStr itemType ++ "_" ++ pyStr year)))
  if truthy pIds then
    match pIds with
    | .dict pids =>
        let tmdb := providerIdProbe pids "TMDB" "Tmdb" "tmdb"
        let imdb := providerIdProbe pids "IMDB" "Imdb" "imdb"
        let tvdb := providerIdProbe pids "TVDB" "Tvdb" "tvdb"
        if truthy tmdb then some (.pid "TMDB" (pyStr tmdb))
        else if truthy imdb then some (.pid "IMDB" (pyStr imdb))
        else if truthy tvdb then some (.pid "TVDB" (pyStr tvdb))
        else some fallbackKey
    | _ => Option.none
  else some fallbackKey

/-- One row of the persistent cache table
`(cache_key, data, expiry)` (cache_manager.py). -/
abbrev CacheEntry := CacheKey × PyDict × Int

/-- cache_manager.py 33-46 `CacheManager.get`: the stored data for `key`
when its expiry is strictly in the future. -/
def cache_get (cache : List CacheEntry) (key : CacheKey) (now : Int) : Option PyDict :=
  (cache.find? (fun e => e.1 == key && now < e.2.2)).map (·.2.1)

/-- cache_manager.py 48-60 `CacheManager.set`: `INSERT OR REPLACE` of
`(key, data, expiry)`. -/
def cache_set (cache : List CacheEntry) (key : CacheKey) (data : PyDict)
    (expiry : Int) : List CacheEntry :=
  cache.filter (fun e => !(e.1 == key)) ++ [(key, data, expiry)]

/-- The `if cached_data:` truthiness gate on the cache lookup
(enrichment_manager.py 87): a hit must be a non-empty dict. -/
def cacheHit (lookup : Option PyDict) : Option PyDict :=
  match lookup with
  | some cd => if cd.isEmpty then Option.none else some cd
  | Option.none => Option.none

/-- enrichment_manager.py 98-112: the provider loop. Try each provider
in order; an exception or a result equal to the current data is a
failure and the loop continues; the first differing result wins and
stops the loop. Returns the data, whether any provider enriched, and
how many providers were invoked. -/
def try_providers : List Provider → PyDict → PyDict × Bool × Nat
  | [], d => (d, false, 0)
  | p :: ps, d =>
      match p.enrich d with
      | .error _ =>
          let (r, e, n) := try_providers ps d
          (r, e, n + 1)
      | .ok res =>
          if res = d then
            let (r, e, n) := try_providers ps d
            (r, e, n + 1)
          else (res, true, 1)

/-- A provider call that the chain treats as "no result": it raises, or
returns its input unchanged. -/
def providerFailsOn (p : Provider) (d : PyDict) : Bool :=
  match p.enrich d with
  | .error _ => true
  | .ok res => res == d

/-- enrichment_manager.py 114-125: the allow-list persisted on a
successful enrichment (`.get` without default is `dict.get`, i.e.
`None` when absent). `image_url` is deliberately not cached. -/
def build_cache_data (enriched : PyDict) : PyDict :=
  [("overview", dictGet enriched "overview" Val.none),
   ("tmdb_id", dictGet enriched "tmdb_id" Val.none),
   ("bgm_id", dictGet enriched "bgm_id" Val.none),
   ("tmdb_enriched", dictGet enriched "tmdb_enriched" Val.none),
   ("bgm_enriched", dictGet enriched "bgm_enriched" Val.none),
   ("year", dictGet enriched "year" Val.none)]

/-- enrichment_manager.py 79-131 `enrich_media_data` over the sorted
provider list `providers`: on a fresh cache hit, merge the cached fields
and set `enriched_from_cache` without calling any provider; on a miss,
run the provider chain and persist the allow-listed fields when it
succeeded. The result is (returned data, cache afterwards, number of
provider calls). An exception while computing the cache key is caught
and returns the input unchanged. `persist` is the configured
`cache_persistence_days * 24 * 3600`. -/
def enrich_media_data (providers : List Provider) (cache : List CacheEntry)
    (now persist : Int) (d : PyDict) : PyDict × List CacheEntry × Nat :=
  match generate_cache_key d with
  | Option.none => (d, cache, 0)
  | some key =>
      match cacheHit (cache_get cache key now) with
      | some cd =>
          (dictSet (dictUpdate d cd) "enriched_from_cache" (.bool true), cache, 0)
      | Option.none =>
          let (r, enriched, n) := try_providers providers d
          if enriched then
            (r, cache_set cache key (build_cache_data r) (now + persist), n)
          else (r, cache, n)

/-! ## Webhook ingress and message queue (main.py) -/

/-- The message payload `_add_to_queue` builds (main.py 477-482). -/
structure MsgPayload where
  imageUrl : String
  messageText : String
  timestamp : Int
  source : String
deriving DecidableEq, Repr

/-- The queue effect of the body of `_add_to_queue` (main.py 455-491):
exactly one payload is appended to `message_queue`. -/
def add_to_queue_effect (queue : List MsgPayload) (p : MsgPayload) : List MsgPayload :=
  queue ++ [p]

/-- main.py 329-331, the enqueue step of `handle_webhook` after parsing,
source detection and the duplicate check all passed. `_add_to_queue` is
an `async def`, but line 330 calls it without `await` and never
schedules the coroutine, so in Python its body never runs: the queue is
left untouched and the handler returns HTTP 200 ("消息已加入队列").
Returns (queue after the handler, HTTP status). -/
def handle_webhook_enqueue_step (queue : List MsgPayload) (p : MsgPayload) :
    List MsgPayload × Nat :=
  (queue, 200)

/-- main.py 1651-1659 `supports_forward_messages`. -/
def supports_forward_messages (platformName : String) : Bool :=
  ["aiocqhttp"].contains (pyLower platformName)

/-- One outbound send call made by the dispatch layer: either a single
merged-forward `send_message` carrying one node per drained item, or an
individual `send_message` for one payload. -/
inductive DispatchCall where
  | batch (nodeCount : Nat)
  | individual (m : MsgPayload)
deriving DecidableEq, Repr

/-- main.py 1892-1932 `send_individual_messages`: one `send_message`
call per payload, in order. A failing send is caught per item (lines
1928-1930) and the loop continues; nothing is requeued, so the call
trace does not depend on which sends fail (`indivFails`). -/
def send_individual_messages (indivFails : MsgPayload → Bool)
    (messages : List MsgPayload) : List DispatchCall :=
  messages.map DispatchCall.individual

/-- main.py 1830-1890 `send_batch_messages`: below the threshold fall
back to individual sends; otherwise build one forward node per payload
(node construction succeeds for the payloads `_add_to_queue` produces,
whose `message_text` is a string) and issue one merged-forward
`send_message`; if that call raises (`batchFails`), fall back to
individual sends for the same message list, once. -/
def send_batch_messages (batchMinSize : Nat) (batchFails : Bool)
    (indivFails : MsgPayload → Bool) (messages : List MsgPayload) : List DispatchCall :=
  if messages.length < batchMinSize then
    send_individual_messages indivFails messages
  else
    let forwardNodes := messages.length
    if forwardNodes ≠ 0 then
      if batchFails then
        DispatchCall.batch forwardNodes :: send_individual_messages indivFails messages
      else [DispatchCall.batch forwardNodes]
    else send_individual_messages indivFails messages

/-- The configuration snapshot `process_message_queue` reads. -/
structure DispatchConfig where
  groupId : String
  platformName : String
  batchMinSize : Nat
  forceIndividual : Bool
  batchFails : Bool
  indivFails : MsgPayload → Bool

/-- main.py 1785-1828 `process_message_queue`: with no group configured
nothing is sent and the queue is kept; otherwise the queue is drained
(copied then cleared) and the drained list is dispatched — individually
when below `batch_min_size` or forced or the platform lacks merged
forwarding, as one batch otherwise. Returns (send-call trace, queue
afterwards); failed items are dropped, never requeued. -/
def process_message_queue (cfg : DispatchConfig) (queue : List MsgPayload) :
    List DispatchCall × List MsgPayload :=
  if queue.isEmpty then ([], queue)
  else if cfg.groupId = "" then ([], queue)
  else
    let messages := queue
    let calls :=
      if messages.length < cfg.batchMinSize then
        send_individual_messages cfg.indivFails messages
      else if cfg.forceIndividual then
        send_individual_messages cfg.indivFails messages
      else if supports_forward_messages cfg.platformName then
        send_batch_messages cfg.batchMinSize cfg.batchFails cfg.indivFails messages
      else
        send_individual_messages cfg.indivFails messages
    (calls, [])

/-! ## Configuration validation (main.py 192-211) -/

/-- The `webhook_port` validator: `isinstance(x, int) and 1 <= x <= 65535`. -/
def isValidPort (v : Val) : Bool :=
  match pyIntVal v with
  | some n => decide (1 ≤ n) && decide (n ≤ 65535)
  | Option.none => false

/-- A `isinstance(x, int) and x >= lo` validator. -/
def isValidMin (lo : Int) (v : Val) : Bool :=
  match pyIntVal v with
  | some n => decide (lo ≤ n)
  | Option.none => false

/-- One validation rule of `validate_config`: read the configured value
(with the rule's default), and overwrite it with `min_value` when the
validator rejects it. -/
def apply_rule (cfg : PyDict) (key : String) (default : Int)
    (valid : Val → Bool) (minValue : Int) : PyDict :=
  if valid (dictGet cfg key (.int default)) then cfg
  else dictSet cfg key (.int minValue)

/-- main.py 192-211 `validate_config`: the four rules, in order. For
`webhook_port` the rule tuple has no explicit minimum, so `min_value`
falls back to the default 60071. -/
def validate_config (cfg : PyDict) : PyDict :=
  let c1 := apply_rule cfg "webhook_port" 60071 isValidPort 60071
  let c2 := apply_rule c1 "batch_interval_seconds" 300 (isValidMin 10) 10
  let c3 := apply_rule c2 "cache_ttl_seconds" 300 (isValidMin 60) 60
  apply_rule c3 "batch_min_size" 3 (isValidMin 1) 1

/-! ## Dictionary lemmas -/

theorem dictLookup_dictSet_self (d : PyDict) (k : String) (v : Val) :
    dictLookup (dictSet d k v) k = some v := by
  induction d with
  | nil => simp [dictSet, dictLookup]
  | cons kv t ih =>
      obtain ⟨k2, v2⟩ := kv
      by_cases h : k2 = k
      · subst h
        simp [dictSet, dictLookup]
      · simp [dictSet, dictLookup, h, ih]

theorem dictLookup_dictSet_ne (d : PyDict) (k k2 : String) (v : Val) (h : k2 ≠ k) :
    dictLookup (dictSet d k v) k2 = dictLookup d k2 := by
  have h2 : (k == k2) = false := by simp [Ne.symm h]
  induction d with
  | nil => simp [dictSet, dictLookup, h2]
  | cons kv t ih =>
      obtain ⟨k3, v3⟩ := kv
      by_cases h3 : k3 = k
      · subst h3
        simp [dictSet, dictLookup, h2]
      · by_cases hk2 : k3 = k2
        · subst hk2
          simp [dictSet, dictLookup, h3]
        · simp [dictSet, dictLookup, h3, hk2, ih]

theorem dictLookup_filter_key (p : String → Bool) (d : PyDict) (k : String)
    (hk : p k = true) :
    dictLookup (d.filter (fun kv => p kv.1)) k = dictLookup d k := by
  induction d with
  | nil => rfl
  | cons kv t ih =>
      obtain ⟨k2, v2⟩ := kv
      by_cases hp : p k2 = true
      · rw [List.filter_cons_of_pos (by simpa using hp)]
        by_cases hkv : k2 = k
        · simp [dictLookup, hkv]
        · simp [dictLookup, hkv, ih]
      · rw [List.filter_cons_of_neg (by simpa using hp)]
        have hkv : k2 ≠ k := fun hh => hp (hh ▸ hk)
        simp [dictLookup, hkv, ih]

/-! ## C1: the webhook handler's enqueue step -/

/-- A representative payload that passed parsing, source detection and
the duplicate check. -/
def samplePayload : MsgPayload :=
  { imageUrl := "", messageText := "[Emby] 新剧集更新", timestamp := 1700000000,
    source := "emby" }

/-- C1 (code bug witness): evaluating the post-dedup step of
`handle_webhook` shows it returns HTTP 200 while leaving the message
queue untouched, whereas the body of `_add_to_queue` would have appended
exactly one payload — the `await` missing at main.py:330 means the claim
"appends exactly one message payload ... and then returns a success
response" does not hold of the code. -/
theorem handle_webhook_returns_200_without_enqueue :
    (handle_webhook_enqueue_step [] samplePayload).2 = 200 ∧
    (handle_webhook_enqueue_step [] samplePayload).1 = [] ∧
    add_to_queue_effect [] samplePayload = [samplePayload] :=
  ⟨rfl, rfl, rfl⟩

/-! ## C7: batch threshold and fallback -/

/-- C7: with `batch_min_size = 3`, a configured group, a platform with
merged forwarding and no force-individual flag: draining 2 items makes
exactly one individual send per item and no batch call; draining ≥ 3
items makes exactly one batch call when it succeeds; when the batch send
raises, the same drained set is sent individually exactly once; in every
case the queue is left empty — failed items are never requeued. -/
theorem process_queue_batch_threshold (cfg : DispatchConfig)
    (hgroup : cfg.groupId ≠ "") (hmin : cfg.batchMinSize = 3)
    (hplat : supports_forward_messages cfg.platformName = true)
    (hforce : cfg.forceIndividual = false) :
    (∀ m1 m2 : MsgPayload, process_message_queue cfg [m1, m2] =
        ([DispatchCall.individual m1, DispatchCall.individual m2], [])) ∧
    (∀ msgs : List MsgPayload, 3 ≤ msgs.length → cfg.batchFails = false →
        process_message_queue cfg msgs = ([DispatchCall.batch msgs.length], [])) ∧
    (∀ msgs : List MsgPayload, 3 ≤ msgs.length → cfg.batchFails = true →
        process_message_queue cfg msgs =
          (DispatchCall.batch msgs.length :: msgs.map DispatchCall.individual, [])) := by
  refine ⟨?_, ?_, ?_⟩
  · intro m1 m2
    simp [process_message_queue, hgroup, hmin, send_individual_messages]
  · intro msgs h3 hbf
    have hne : msgs.isEmpty = false := by
      cases msgs with
      | nil => simp at h3
      | cons a t => rfl
    have hlt : ¬ msgs.length < cfg.batchMinSize := by omega
    have hnz : msgs.length ≠ 0 := by omega
    simp [process_message_queue, hne, hgroup, hforce, hplat, hlt, hnz,
      send_batch_messages, hbf]
  · intro msgs h3 hbf
    have hne : msgs.isEmpty = false := by
      cases msgs with
      | nil => simp at h3
      | cons a t => rfl
    have hlt : ¬ msgs.length < cfg.batchMinSize := by omega
    have hnz : msgs.length ≠ 0 := by omega
    simp [process_message_queue, hne, hgroup, hforce, hplat, hlt, hnz,
      send_batch_messages, hbf, send_individual_messages]

/-- C7 witness: a concrete run of each of the three scenarios. -/
theorem process_queue_batch_threshold_witness :
    (process_message_queue
        ⟨"123", "aiocqhttp", 3, false, false, fun _ => false⟩
        [samplePayload, samplePayload] =
      ([DispatchCall.individual samplePayload, DispatchCall.individual samplePayload], [])) ∧
    (process_message_queue
        ⟨"123", "aiocqhttp", 3, false, false, fun _ => false⟩
        [samplePayload, samplePayload, samplePayload] =
      ([DispatchCall.batch 3], [])) ∧
    (process_message_queue
        ⟨"123", "aiocqhttp", 3, false, true, fun _ => false⟩
        [samplePayload, samplePayload, samplePayload] =
      (DispatchCall.batch 3 :: [samplePayload, samplePayload, samplePayload].map DispatchCall.individual, [])) := by
  refine ⟨?_, ?_, ?_⟩
  · exact (process_queue_batch_threshold _ (by decide) rfl (by decide) rfl).1
      samplePayload samplePayload
  · exact (process_queue_batch_threshold _ (by decide) rfl (by decide) rfl).2.1
      [samplePayload, samplePayload, samplePayload] (by decide) rfl
  · exact (process_queue_batch_threshold _ (by decide) rfl (by decide) rfl).2.2
      [samplePayload, samplePayload, samplePayload] (by decide) rfl

/-! ## C10: configuration validation -/

theorem apply_rule_lookup_other (cfg : PyDict) (k k2 : String) (df mv : Int)
    (vl : Val → Bool) (h : k2 ≠ k) :
    dictLookup (apply_rule cfg k df vl mv) k2 = dictLookup cfg k2 := by
  unfold apply_rule
  split
  · rfl
  · exact dictLookup_dictSet_ne cfg k k2 (.int mv) h

theorem apply_rule_post (cfg : PyDict) (k : String) (df mv : Int)
    (vl : Val → Bool) (hmv : vl (.int mv) = true) :
    vl (dictGet (apply_rule cfg k df vl mv) k (.int df)) = true := by
  unfold apply_rule
  by_cases h : vl (dictGet cfg k (.int df)) = true
  · simp [h]
  · simp only [h, if_false, Bool.false_eq_true]
    unfold dictGet
    rw [dictLookup_dictSet_self]
    simpa using hmv

theorem apply_rule_replaced (cfg : PyDict) (k : String) (df mv : Int)
    (vl : Val → Bool) (h : vl (dictGet cfg k (.int df)) = false) :
    dictLookup (apply_rule cfg k df vl mv) k = some (.int mv) := by
  unfold apply_rule
  rw [h]
  simp only [Bool.false_eq_true, if_false]
  exact dictLookup_dictSet_self cfg k (.int mv)

theorem isValidPort_spec (v : Val) (h : isValidPort v = true) :
    ∃ p, pyIntVal v = some p ∧ 1 ≤ p ∧ p ≤ 65535 := by
  unfold isValidPort at h
  cases hv : pyIntVal v with
  | none => rw [hv] at h; simp at h
  | some n =>
      rw [hv] at h
      simp only [Bool.and_eq_true, decide_eq_true_eq] at h
      exact ⟨n, rfl, h.1, h.2⟩

theorem isValidMin_spec (lo : Int) (v : Val) (h : isValidMin lo v = true) :
    ∃ n, pyIntVal v = some n ∧ lo ≤ n := by
  unfold isValidMin at h
  cases hv : pyIntVal v with
  | none => rw [hv] at h; simp at h
  | some n =>
      rw [hv] at h
      simp only [decide_eq_true_eq] at h
      exact ⟨n, rfl, h⟩

/-- C10: after `validate_config` runs, the effective settings (what
`config.get(key, default)` yields afterwards) satisfy the bounds:
`webhook_port` is an integer in 1..65535, `batch_interval_seconds ≥ 10`,
`cache_ttl_seconds ≥ 60` and `batch_min_size ≥ 1`; and any configured
value that fails its rule is overwritten with the rule's minimum
(60071, the default, for the port rule, which carries no separate
minimum). -/
theorem validate_config_enforces_minimums (cfg : PyDict) :
    (∃ p, pyIntVal (dictGet (validate_config cfg) "webhook_port" (.int 60071)) = some p ∧
        1 ≤ p ∧ p ≤ 65535) ∧
    (∃ n, pyIntVal (dictGet (validate_config cfg) "batch_interval_seconds" (.int 300)) =
        some n ∧ 10 ≤ n) ∧
    (∃ n, pyIntVal (dictGet (validate_config cfg) "cache_ttl_seconds" (.int 300)) =
        some n ∧ 60 ≤ n) ∧
    (∃ n, pyIntVal (dictGet (validate_config cfg) "batch_min_size" (.int 3)) =
        some n ∧ 1 ≤ n) ∧
    (isValidPort (dictGet cfg "webhook_port" (.int 60071)) = false →
      dictLookup (validate_config cfg) "webhook_port" = some (.int 60071)) ∧
    (isValidMin 10 (dictGet cfg "batch_interval_seconds" (.int 300)) = false →
      dictLookup (validate_config cfg) "batch_interval_seconds" = some (.int 10)) ∧
    (isValidMin 60 (dictGet cfg "cache_ttl_seconds" (.int 300)) = false →
      dictLookup (validate_config cfg) "cache_ttl_seconds" = some (.int 60)) ∧
    (isValidMin 1 (dictGet cfg "batch_min_size" (.int 3)) = false →
      dictLookup (validate_config cfg) "batch_min_size" = some (.int 1)) := by
  unfold validate_config
  refine ⟨?_, ?_, ?_, ?_, ?_, ?_, ?_, ?_⟩
  · apply isValidPort_spec
    unfold dictGet
    rw [apply_rule_lookup_other _ _ _ _ _ _ (by decide),
      apply_rule_lookup_other _ _ _ _ _ _ (by decide),
      apply_rule_lookup_other _ _ _ _ _ _ (by decide)]
    exact apply_rule_post cfg _ _ _ _ (by decide)
  · apply isValidMin_spec
    unfold dictGet
    rw [apply_rule_lookup_other _ _ _ _ _ _ (by decide),
      apply_rule_lookup_other _ _ _ _ _ _ (by decide)]
    exact apply_rule_post _ _ _ _ _ (by decide)
  · apply isValidMin_spec
    unfold dictGet
    rw [apply_rule_lookup_other _ _ _ _ _ _ (by decide)]
    exact apply_rule_post _ _ _ _ _ (by decide)
  · apply isValidMin_spec
    exact apply_rule_post _ _ _ _ _ (by decide)
  · intro h
    rw [apply_rule_lookup_other _ _ _ _ _ _ (by decide),
      apply_rule_lookup_other _ _ _ _ _ _ (by decide),
      apply_rule_lookup_other _ _ _ _ _ _ (by decide)]
    exact apply_rule_replaced cfg _ _ _ _ h
  · intro h
    rw [apply_rule_lookup_other _ _ _ _ _ _ (by decide),
      apply_rule_lookup_other _ _ _ _ _ _ (by decide)]
    apply apply_rule_replaced
    unfold dictGet
    rw [apply_rule_lookup_other _ _ _ _ _ _ (by decide)]
    exact h
  · intro h
    rw [apply_rule_lookup_other _ _ _ _ _ _ (by decide)]
    apply apply_rule_replaced
    unfold dictGet
    rw [apply_rule_lookup_other _ _ _ _ _ _ (by decide),
      apply_rule_lookup_other _ _ _ _ _ _ (by decide)]
    exact h
  · intro h
    apply apply_rule_replaced
    unfold dictGet
    rw [apply_rule_lookup_other _ _ _ _ _ _ (by decide),
      apply_rule_lookup_other _ _ _ _ _ _ (by decide),
      apply_rule_lookup_other _ _ _ _ _ _ (by decide)]
    exact h

/-- C10 witness: a configuration violating all four rules is clamped to
each rule's minimum. -/
theorem validate_config_enforces_minimums_witness :
    dictLookup (validate_config
      [("webhook_port", .int 0), ("batch_interval_seconds", .int 5),
       ("cache_ttl_seconds", .int 10), ("batch_min_size", .int 0)])
      "webhook_port" = some (.int 60071) ∧
    dictLookup (validate_config
      [("webhook_port", .int 0), ("batch_interval_seconds", .int 5),
       ("cache_ttl_seconds", .int 10), ("batch_min_size", .int 0)])
      "batch_min_size" = some (.int 1) :=
  ⟨(validate_config_enforces_minimums _).2.2.2.2.1 (by decide),
   (validate_config_enforces_minimums _).2.2.2.2.2.2.2 (by decide)⟩

/-! ## C2: duplicate-check TTL behavior -/

theorem find?_filter_none {α : Type} (p q : α → Bool) (l : List α)
    (h : l.find? p = Option.none) : (l.filter q).find? p = Option.none := by
  rw [List.find?_eq_none] at h ⊢
  intro x hx
  exact h x (List.mem_filter.mp hx).1

/-- C2: for a payload family with fingerprint `H` not cached at the first
call: the first call reports no duplicate and records `H` with expiry
`t1 + ttl`; a second call at `t2` within the TTL (`t2 ≤ t1 + ttl`)
reports a duplicate; a third call at `t3` after the expiry
(`t1 + ttl < t3`) reports no duplicate again and re-records `H` with
expiry `t3 + ttl`; and after any call whose payload hashes successfully,
no expired entry remains in the cache. -/
theorem is_duplicate_request_ttl_roundtrip (ttl t1 t2 t3 : Int)
    (cache : List (ReqHash × Int)) (n1 n2 n3 : PyDict) (H : ReqHash)
    (httl : 0 ≤ ttl)
    (hh1 : calculate_request_hash n1 = some H)
    (hh2 : calculate_request_hash n2 = some H)
    (hh3 : calculate_request_hash n3 = some H)
    (hfresh : (cleanup_expired_cache t1 cache).find? (fun e => e.1 == H) =
      Option.none)
    (h2exp : t2 ≤ t1 + ttl)
    (h3exp : t1 + ttl < t3) :
    is_duplicate_request ttl t1 cache n1 =
      (false, cleanup_expired_cache t1 cache ++ [(H, t1 + ttl)]) ∧
    is_duplicate_request ttl t2 (is_duplicate_request ttl t1 cache n1).2 n2 =
      (true, cleanup_expired_cache t2 (cleanup_expired_cache t1 cache) ++
        [(H, t1 + ttl)]) ∧
    is_duplicate_request ttl t3
        (is_duplicate_request ttl t2 (is_duplicate_request ttl t1 cache n1).2 n2).2 n3 =
      (false, cleanup_expired_cache t3
        (cleanup_expired_cache t2 (cleanup_expired_cache t1 cache)) ++
        [(H, t3 + ttl)]) ∧
    (∀ (now : Int) (c : List (ReqHash × Int)) (d : PyDict) (e : ReqHash × Int),
      (calculate_request_hash d).isSome = true →
      e ∈ (is_duplicate_request ttl now c d).2 → ¬ e.2 < now) := by
  have hcall1 : is_duplicate_request ttl t1 cache n1 =
      (false, cleanup_expired_cache t1 cache ++ [(H, t1 + ttl)]) := by
    simp only [is_duplicate_request, hh1]
    rw [hfresh]
    rfl
  have hstate2 : cleanup_expired_cache t2
      (cleanup_expired_cache t1 cache ++ [(H, t1 + ttl)]) =
      cleanup_expired_cache t2 (cleanup_expired_cache t1 cache) ++ [(H, t1 + ttl)] := by
    unfold cleanup_expired_cache
    rw [List.filter_append]
    simp [show ¬ (t1 + ttl < t2) by omega]
  have hleft2 : (cleanup_expired_cache t2
      (cleanup_expired_cache t1 cache)).find? (fun e => e.1 == H) = Option.none :=
    find?_filter_none _ _ _ hfresh
  have hcall2 : is_duplicate_request ttl t2
      (cleanup_expired_cache t1 cache ++ [(H, t1 + ttl)]) n2 =
      (true, cleanup_expired_cache t2 (cleanup_expired_cache t1 cache) ++
        [(H, t1 + ttl)]) := by
    simp only [is_duplicate_request, hh2, hstate2]
    rw [List.find?_append, hleft2]
    simp
  have hstate3 : cleanup_expired_cache t3
      (cleanup_expired_cache t2 (cleanup_expired_cache t1 cache) ++ [(H, t1 + ttl)]) =
      cleanup_expired_cache t3
        (cleanup_expired_cache t2 (cleanup_expired_cache t1 cache)) := by
    unfold cleanup_expired_cache
    rw [List.filter_append]
    simp [show (t1 + ttl < t3) by omega]
  have hleft3 : (cleanup_expired_cache t3
      (cleanup_expired_cache t2 (cleanup_expired_cache t1 cache))).find?
      (fun e => e.1 == H) = Option.none :=
    find?_filter_none _ _ _ (find?_filter_none _ _ _ hfresh)
  have hcall3 : is_duplicate_request ttl t3
      (cleanup_expired_cache t2 (cleanup_expired_cache t1 cache) ++ [(H, t1 + ttl)]) n3 =
      (false, cleanup_expired_cache t3
        (cleanup_expired_cache t2 (cleanup_expired_cache t1 cache)) ++
        [(H, t3 + ttl)]) := by
    simp only [is_duplicate_request, hh3, hstate3]
    rw [hleft3]
    rfl
  refine ⟨hcall1, ?_, ?_, ?_⟩
  · rw [hcall1]
    exact hcall2
  · rw [hcall1]
    simp only
    rw [hcall2]
    exact hcall3
  · intro now c d e hsome hmem
    cases hd : calculate_request_hash d with
    | none => rw [hd] at hsome; simp at hsome
    | some h =>
        by_cases hfind : (((cleanup_expired_cache now c).find?
            (fun e => e.1 == h)).isSome : Bool) = true
        · simp only [is_duplicate_request, hd, hfind, if_true] at hmem
          have := List.mem_filter.mp hmem
          simpa using this.2
        · simp only [is_duplicate_request, hd, hfind, if_false] at hmem
          rcases List.mem_append.mp hmem with hm | hm
          · have := List.mem_filter.mp hm
            simpa using this.2
          · rcases List.mem_singleton.mp hm with rfl
            simp only
            omega

/-- C2 witness: a concrete payload, cached at time 1000 with TTL 300, is
reported fresh, then duplicate at 1200, then fresh again at 1400. -/
theorem is_duplicate_request_ttl_roundtrip_witness :
    is_duplicate_request 300 1000 [] [("series_name", Val.str "A")] =
      (false, [(ReqHash.standard [("series_name", "A")], 1300)]) ∧
    (is_duplicate_request 300 1200
      (is_duplicate_request 300 1000 [] [("series_name", Val.str "A")]).2
      [("series_name", Val.str "A")]).1 = true ∧
    (is_duplicate_request 300 1400
      (is_duplicate_request 300 1200
        (is_duplicate_request 300 1000 [] [("series_name", Val.str "A")]).2
        [("series_name", Val.str "A")]).2
      [("series_name", Val.str "A")]).1 = false := by
  have h := is_duplicate_request_ttl_roundtrip 300 1000 1200 1400 []
    [("series_name", Val.str "A")] [("series_name", Val.str "A")]
    [("series_name", Val.str "A")]
    (ReqHash.standard [("series_name", "A")])
    (by decide) (by decide) (by decide) (by decide) (by decide) (by decide) (by decide)
  refine ⟨h.1.trans (by decide), ?_, ?_⟩
  · rw [h.2.1]
  · rw [h.2.2.1]

/-! ## C8: fingerprint excludes volatile fields -/

/-- The volatile fields of the claim: the image URL and the wall-clock
timestamp fields, all of which `_calculate_standard_hash` excludes. -/
def volatileKeys : List String :=
  ["image_url", "timestamp", "request_time", "processed_time", "cache_time"]

theorem not_excluded_not_volatile (k : String)
    (h : excludedFields.contains k = false) : volatileKeys.contains k = false := by
  simp only [excludedFields, List.contains_cons, List.contains_nil,
    Bool.or_eq_false_iff] at h
  simp only [volatileKeys, List.contains_cons, List.contains_nil,
    Bool.or_eq_false_iff]
  exact ⟨h.1, h.2.1, h.2.2.2.2.1, h.2.2.2.2.2.1, h.2.2.2.2.2.2⟩

/-- C8: two payloads that agree on everything except the `image_url`
field and the timestamp fields produce the same deduplication
fingerprint. -/
theorem fingerprint_ignores_volatile_fields (n1 n2 : PyDict)
    (hagree : n1.filter (fun kv => !(volatileKeys.contains kv.1)) =
              n2.filter (fun kv => !(volatileKeys.contains kv.1))) :
    calculate_request_hash n1 = calculate_request_hash n2 := by
  have hlook : ∀ k, volatileKeys.contains k = false →
      dictLookup n1 k = dictLookup n2 k := by
    intro k hk
    have e1 := dictLookup_filter_key (fun s => !(volatileKeys.contains s)) n1 k
      (by simpa using hk)
    have e2 := dictLookup_filter_key (fun s => !(volatileKeys.contains s)) n2 k
      (by simpa using hk)
    rw [← e1, ← e2, hagree]
  have hget : ∀ (k : String) (v : Val), volatileKeys.contains k = false →
      dictGet n1 k v = dictGet n2 k v := by
    intro k v hk
    unfold dictGet
    rw [hlook k hk]
  have hmem : ∀ k, volatileKeys.contains k = false →
      dictMem n1 k = dictMem n2 k := by
    intro k hk
    unfold dictMem
    rw [hlook k hk]
  have hexcl : n1.filter (fun kv =>
        !(excludedFields.contains kv.1) && !(pyEndsWith kv.1 "_url")) =
      n2.filter (fun kv =>
        !(excludedFields.contains kv.1) && !(pyEndsWith kv.1 "_url")) := by
    have key : ∀ m : PyDict,
        m.filter (fun kv =>
          !(excludedFields.contains kv.1) && !(pyEndsWith kv.1 "_url")) =
        (m.filter (fun kv => !(volatileKeys.contains kv.1))).filter (fun kv =>
          !(excludedFields.contains kv.1) && !(pyEndsWith kv.1 "_url")) := by
      intro m
      rw [List.filter_filter]
      apply List.filter_congr
      intro kv _
      cases hc : excludedFields.contains kv.1
      · have hv := not_excluded_not_volatile kv.1 hc
        simp only [Bool.not_false, Bool.true_and, hv, Bool.and_true]
      · simp
    rw [key n1, key n2, hagree]
  have hani : is_ani_rss_data n1 = is_ani_rss_data n2 := by
    unfold is_ani_rss_data
    rw [hmem "meassage" (by decide), hmem "text_template" (by decide)]
  unfold calculate_request_hash
  rw [← hani]
  by_cases hb : is_ani_rss_data n1 = true
  · simp only [hb, if_true]
    unfold calculate_ani_rss_hash
    by_cases hm : dictMem n1 "meassage" = true
    · have hm2 : dictMem n2 "meassage" = true := by
        rw [← hmem "meassage" (by decide)]
        exact hm
      simp only [hm, hm2, if_true]
      rw [hget "meassage" (.list []) (by decide)]
    · have hm1 : dictMem n1 "meassage" = false := by
        cases hmm : dictMem n1 "meassage"
        · rfl
        · exact absurd hmm hm
      have hm2 : dictMem n2 "meassage" = false := by
        rw [← hmem "meassage" (by decide)]
        exact hm1
      have ht1 : dictMem n1 "text_template" = true := by
        unfold is_ani_rss_data at hb
        rcases Bool.or_eq_true_iff.mp hb with hx | hx
        · exact absurd hx hm
        · exact hx
      have ht2 : dictMem n2 "text_template" = true := by
        rw [← hmem "text_template" (by decide)]
        exact ht1
      simp only [hm1, hm2, Bool.false_eq_true, if_false, ht1, ht2, if_true]
      rw [hget "text_template" (.str "") (by decide)]
  · simp only [hb, if_false]
    unfold calculate_standard_hash
    rw [hget "series_name" (.str "") (by decide),
      hget "item_name" (.str "") (by decide),
      hget "season_number" (.str "") (by decide),
      hget "episode_number" (.str "") (by decide),
      hget "item_type" (.str "") (by decide),
      hget "year" (.str "") (by decide),
      hexcl]
    simp

/-- C8 witness: two payloads identical except for `image_url` and
`timestamp` have equal fingerprints. -/
theorem fingerprint_ignores_volatile_fields_witness :
    calculate_request_hash
      [("series_name", Val.str "Show"), ("episode_number", Val.int 3),
       ("image_url", Val.str "http://a/1.png"), ("timestamp", Val.int 100)] =
    calculate_request_hash
      [("series_name", Val.str "Show"), ("episode_number", Val.int 3),
       ("image_url", Val.str "http://b/2.png"), ("timestamp", Val.int 999)] :=
  fingerprint_ignores_volatile_fields _ _ (by decide)

/-! ## C3: validation invariant of accepted standard data -/

/-- An Emby webhook payload whose `Item.Type` is explicitly the empty
string (Python `item.get("Type", "Unknown")` returns the stored `""`). -/
def embyEmptyTypePayload : PyDict :=
  [("Item", .dict [("Type", .str ""), ("Name", .str "Foo")]),
   ("Server", .dict [])]

/-- C3 counterexample: the manager accepts this converted Notification
(the result is a non-empty dict, so it is not rejected), yet its
`item_type` is the empty string — `validate_standard_data` never checks
`item_type`, refuting the claim that every accepted Notification has a
non-empty `item_type`. -/
theorem manager_accepts_empty_item_type :
    manager_convert_to_standard (emby_convert_to_standard id) embyEmptyTypePayload ≠ [] ∧
    dictLookup (manager_convert_to_standard (emby_convert_to_standard id)
      embyEmptyTypePayload) "item_type" = some (.str "") := by
  constructor
  · decide
  · decide

/-- C3 (amended): every Notification the manager accepts (a non-empty
`convert_to_standard` result) has at least one of the stripped
`series_name`/`item_name` fields non-empty — rejected conversions come
back as the empty dict. The amendment drops the non-empty `item_type`
guarantee, which `validate_standard_data` does not check. -/
theorem manager_accepted_has_nonempty_name (convert : PyDict → PyDict)
    (d : PyDict)
    (h : manager_convert_to_standard convert d ≠ []) :
    ∃ seriesName itemName : String,
      valStrip (dictGet (manager_convert_to_standard convert d)
        "series_name" (.str "")) = some seriesName ∧
      valStrip (dictGet (manager_convert_to_standard convert d)
        "item_name" (.str "")) = some itemName ∧
      (seriesName ≠ "" ∨ itemName ≠ "") := by
  unfold manager_convert_to_standard at h ⊢
  by_cases hres : (convert d).isEmpty = true
  · rw [if_pos hres] at h
    exact absurd rfl h
  · rw [if_neg hres] at h ⊢
    cases hval : validate_standard_data (convert d) with
    | none => simp only [hval] at h; exact absurd rfl h
    | some b =>
        cases b with
        | false => simp only [hval] at h; exact absurd rfl h
        | true =>
            simp only [hval] at h ⊢
            unfold validate_standard_data at hval
            cases hsn : valStrip (dictGet (convert d) "series_name" (.str "")) with
            | none => rw [hsn] at hval; simp at hval
            | some sn =>
                rw [hsn] at hval
                cases hin : valStrip (dictGet (convert d) "item_name" (.str "")) with
                | none => rw [hin] at hval; simp at hval
                | some inm =>
                    rw [hin] at hval
                    simp only [Option.bind_eq_bind, Option.some_bind,
                      Option.some.injEq] at hval
                    refine ⟨sn, inm, rfl, rfl, ?_⟩
                    have : (!(sn == "") || !(inm == "")) = true := by
                      simpa using hval
                    rcases Bool.or_eq_true_iff.mp this with hx | hx
                    · left
                      simpa using hx
                    · right
                      simpa using hx

/-- C3 witness: a converted Emby payload accepted by the manager indeed
has a non-empty name (here `item_name = "Foo"`). -/
theorem manager_accepted_has_nonempty_name_witness :
    ∃ seriesName itemName : String,
      valStrip (dictGet (manager_convert_to_standard
        (emby_convert_to_standard id) embyEmptyTypePayload)
        "series_name" (.str "")) = some seriesName ∧
      valStrip (dictGet (manager_convert_to_standard
        (emby_convert_to_standard id) embyEmptyTypePayload)
        "item_name" (.str "")) = some itemName ∧
      (seriesName ≠ "" ∨ itemName ≠ "") :=
  manager_accepted_has_nonempty_name (emby_convert_to_standard id)
    embyEmptyTypePayload (by decide)

/-! ## C9: runtime conversion in the generic processor -/

/-- C9 counterexample: a 24-minute duration expressed in milliseconds
(`duration = 1440000`) is fed through the tick conversion
(`// 600000000`), producing the empty string instead of the
24-minute runtime string the claim requires for a millisecond
duration. -/
theorem generic_runtime_millisecond_counterexample :
    generic_extract_runtime [("Name", Val.str "X"), ("duration", Val.int 1440000)] = "" ∧
    ("" : String) ≠ "24分钟" := by
  constructor
  · decide
  · decide

/-- C9 (amended): the generic processor folds every duration field
through a single tick interpretation: the first truthy of
`RunTimeTicks`/`runtime_ticks`/`duration` is treated as a
hundred-nanosecond tick count `N` and yields `N / 600000000` minutes
(the empty string when that quotient is 0 — so millisecond values are
not converted as milliseconds); otherwise a truthy plain-minutes
`runtime` value (a digit string, or a number) yields that number of
minutes as a string; with no duration field present the runtime is the
empty string. -/
theorem generic_extract_runtime_spec :
    (∀ (d : PyDict) (n : Int), dictLookup d "RunTimeTicks" = some (.int n) →
      0 < n →
      generic_extract_runtime d =
        (if 0 < n / 600000000 then toString (n / 600000000) ++ "分钟" else "")) ∧
    (∀ (d : PyDict) (s : String),
      dictLookup d "RunTimeTicks" = Option.none →
      dictLookup d "runtime_ticks" = Option.none →
      dictLookup d "duration" = Option.none →
      dictLookup d "runtime" = some (.str s) → pyIsDigit s = true →
      generic_extract_runtime d = s ++ "分钟") ∧
    (∀ (d : PyDict) (m : Int),
      dictLookup d "RunTimeTicks" = Option.none →
      dictLookup d "runtime_ticks" = Option.none →
      dictLookup d "duration" = Option.none →
      dictLookup d "runtime" = some (.int m) → m ≠ 0 →
      generic_extract_runtime d = toString m ++ "分钟") ∧
    (∀ d : PyDict,
      dictLookup d "RunTimeTicks" = Option.none →
      dictLookup d "runtime_ticks" = Option.none →
      dictLookup d "duration" = Option.none →
      dictLookup d "runtime" = Option.none →
      generic_extract_runtime d = "") := by
  refine ⟨?_, ?_, ?_, ?_⟩
  · intro d n hlk hpos
    have hnz : n ≠ 0 := by omega
    simp [generic_extract_runtime, dictGet, pyOr, safe_get_runtime, truthy,
      pyIntVal, hlk, hnz, hpos]
  · intro d s h1 h2 h3 h4 hdig
    have hs : s ≠ "" := by
      intro he
      rw [he] at hdig
      simp [pyIsDigit] at hdig
    simp [generic_extract_runtime, dictGet, pyOr, truthy, h1, h2, h3, h4,
      hs, hdig]
  · intro d m h1 h2 h3 h4 hm
    simp [generic_extract_runtime, dictGet, pyOr, truthy, h1, h2, h3, h4, hm]
  · intro d h1 h2 h3 h4
    simp [generic_extract_runtime, dictGet, pyOr, truthy, h1, h2, h3, h4]

/-- C9 witness: concrete runs of the tick, digit-string, numeric and
absent-duration branches. -/
theorem generic_extract_runtime_spec_witness :
    generic_extract_runtime [("RunTimeTicks", Val.int 14400000000)] = "24分钟" ∧
    generic_extract_runtime [("runtime", Val.str "24")] = "24分钟" ∧
    generic_extract_runtime [("runtime", Val.int 24)] = "24分钟" ∧
    generic_extract_runtime [("Name", Val.str "X")] = "" := by
  refine ⟨?_, ?_, ?_, ?_⟩
  · exact (generic_extract_runtime_spec.1 [("RunTimeTicks", Val.int 14400000000)]
      14400000000 (by decide) (by decide)).trans (by decide)
  · exact generic_extract_runtime_spec.2.1 [("runtime", Val.str "24")] "24"
      (by decide) (by decide) (by decide) (by decide) (by decide)
  · exact generic_extract_runtime_spec.2.2.1 [("runtime", Val.int 24)] 24
      (by decide) (by decide) (by decide) (by decide) (by decide)
  · exact generic_extract_runtime_spec.2.2.2 [("Name", Val.str "X")]
      (by decide) (by decide) (by decide) (by decide)

/-! ## C4: provider chain fallback on a cache miss -/

theorem try_providers_all_fail (d : PyDict) :
    ∀ ps : List Provider, (∀ q ∈ ps, providerFailsOn q d = true) →
      try_providers ps d = (d, false, ps.length) := by
  intro ps
  induction ps with
  | nil => intro _; rfl
  | cons p t ih =>
      intro h
      have hp := h p (List.mem_cons_self p t)
      unfold providerFailsOn at hp
      unfold try_providers
      cases he : p.enrich d with
      | error err =>
          simp only [he]
          rw [ih (fun q hq => h q (List.mem_cons_of_mem p hq))]
          simp
      | ok res =>
          rw [he] at hp
          have hd : res = d := by simpa using hp
          simp only [he, hd, if_pos rfl]
          rw [ih (fun q hq => h q (List.mem_cons_of_mem p hq))]
          simp

theorem try_providers_first_success (d r : PyDict) :
    ∀ (ps1 : List Provider) (p : Provider) (ps2 : List Provider),
      (∀ q ∈ ps1, providerFailsOn q d = true) →
      p.enrich d = .ok r → r ≠ d →
      try_providers (ps1 ++ p :: ps2) d = (r, true, ps1.length + 1) := by
  intro ps1
  induction ps1 with
  | nil =>
      intro p ps2 _ hok hne
      unfold try_providers
      simp only [List.nil_append, hok, hne, if_neg hne]
      simp [hne]
  | cons q t ih =>
      intro p ps2 hfail hok hne
      have hq := hfail q (List.mem_cons_self q t)
      unfold providerFailsOn at hq
      unfold try_providers
      cases he : q.enrich d with
      | error err =>
          simp only [List.cons_append, he]
          rw [ih p ps2 (fun x hx => hfail x (List.mem_cons_of_mem q hx)) hok hne]
          simp [Nat.add_comm]
      | ok res =>
          rw [he] at hq
          have hd : res = d := by simpa using hq
          simp only [List.cons_append, he, hd, if_pos rfl]
          rw [ih p ps2 (fun x hx => hfail x (List.mem_cons_of_mem q hx)) hok hne]
          simp [Nat.add_comm]

/-- C4: on a persistent-cache miss the sorted provider list is tried in
ascending priority order; providers that raise or return their input
unchanged do not stop the chain; the first provider returning a result
different from the input wins, no later provider is invoked (the call
count is its position), and its result alone is persisted — results are
never merged; if every provider fails, the input is returned unchanged
with the cache untouched. -/
theorem enrich_provider_chain_fallback (configured : List Provider)
    (cache : List CacheEntry) (now persist : Int) (d : PyDict) (key : CacheKey)
    (hkey : generate_cache_key d = some key)
    (hmiss : cacheHit (cache_get cache key now) = Option.none) :
    List.Sorted priorityLE (initialize_providers configured) ∧
    (∀ (ps1 : List Provider) (p : Provider) (ps2 : List Provider) (r : PyDict),
      initialize_providers configured = ps1 ++ p :: ps2 →
      (∀ q ∈ ps1, providerFailsOn q d = true) →
      p.enrich d = .ok r → r ≠ d →
      enrich_media_data (initialize_providers configured) cache now persist d =
        (r, cache_set cache key (build_cache_data r) (now + persist),
          ps1.length + 1)) ∧
    ((∀ q ∈ initialize_providers configured, providerFailsOn q d = true) →
      enrich_media_data (initialize_providers configured) cache now persist d =
        (d, cache, (initialize_providers configured).length)) := by
  refine ⟨List.sorted_insertionSort priorityLE configured, ?_, ?_⟩
  · intro ps1 p ps2 r hsplit hfail hok hne
    unfold enrich_media_data
    rw [hkey]
    simp only [hmiss]
    rw [hsplit, try_providers_first_success d r ps1 p ps2 hfail hok hne]
    simp
  · intro hall
    unfold enrich_media_data
    rw [hkey]
    simp only [hmiss]
    rw [try_providers_all_fail d _ hall]
    simp

/-- C4 witness: provider A (priority 1) raises, provider B (priority 2)
returns its input unchanged, provider C (priority 3) succeeds: C's
result is returned after exactly 3 calls; with only A and B, the input
comes back unchanged. -/
theorem enrich_provider_chain_fallback_witness :
    enrich_media_data
      (initialize_providers
        [⟨3, "C", fun d => .ok (dictSet d "tmdb_enriched" (.bool true))⟩,
         ⟨1, "A", fun _ => .error ()⟩,
         ⟨2, "B", fun d => .ok d⟩])
      [] 0 604800 [("item_name", Val.str "Show")] =
      (dictSet [("item_name", Val.str "Show")] "tmdb_enriched" (.bool true),
        cache_set [] (.nameHash "show__")
          (build_cache_data
            (dictSet [("item_name", Val.str "Show")] "tmdb_enriched" (.bool true)))
          604800,
        3) ∧
    enrich_media_data
      (initialize_providers
        [⟨1, "A", fun _ => .error ()⟩, ⟨2, "B", fun d => .ok d⟩])
      [] 0 604800 [("item_name", Val.str "Show")] =
      ([("item_name", Val.str "Show")], [], 2) := by
  constructor
  · have h := (enrich_provider_chain_fallback
      [⟨3, "C", fun d => .ok (dictSet d "tmdb_enriched" (.bool true))⟩,
       ⟨1, "A", fun _ => .error ()⟩,
       ⟨2, "B", fun d => .ok d⟩]
      [] 0 604800 [("item_name", Val.str "Show")] (.nameHash "show__")
      (by decide) (by decide)).2.1
      [⟨1, "A", fun _ => .error ()⟩, ⟨2, "B", fun d => .ok d⟩]
      ⟨3, "C", fun d => .ok (dictSet d "tmdb_enriched" (.bool true))⟩
      []
      (dictSet [("item_name", Val.str "Show")] "tmdb_enriched" (.bool true))
      rfl
      (by
        intro q hq
        rcases List.mem_cons.mp hq with rfl | hq
        · decide
        · rcases List.mem_cons.mp hq with rfl | hq
          · decide
          · cases hq)
      rfl (by decide)
    exact h
  · have h := (enrich_provider_chain_fallback
      [⟨1, "A", fun _ => .error ()⟩, ⟨2, "B", fun d => .ok d⟩]
      [] 0 604800 [("item_name", Val.str "Show")] (.nameHash "show__")
      (by decide) (by decide)).2.2
      (by
        intro q hq
        rcases List.mem_cons.mp hq with rfl | hq
        · decide
        · rcases List.mem_cons.mp hq with rfl | hq
          · decide
          · cases hq)
    exact h

/-! ## C5: persistent-cache short-circuit -/

theorem build_cache_data_not_empty (r : PyDict) :
    (build_cache_data r).isEmpty = false := rfl

/-- C5: when a first `enrich_media_data` call was a cache miss whose
provider chain succeeded (storing the allow-listed fields under the
key), a later call for a payload with the same cache key, made before
the stored expiry, merges the cached fields into its input, sets
`enriched_from_cache`, and returns with the cache unchanged and zero
provider invocations — whatever providers the second call has. -/
theorem enrich_cache_short_circuit (providers providers2 : List Provider)
    (cache : List CacheEntry) (t0 t1 persist : Int) (d1 d2 : PyDict)
    (key : CacheKey)
    (hkey1 : generate_cache_key d1 = some key)
    (hkey2 : generate_cache_key d2 = some key)
    (hmiss : cacheHit (cache_get cache key t0) = Option.none)
    (henr : (try_providers providers d1).2.1 = true)
    (hfresh : t1 < t0 + persist) :
    enrich_media_data providers2
        (enrich_media_data providers cache t0 persist d1).2.1 t1 persist d2 =
      (dictSet (dictUpdate d2 (build_cache_data (try_providers providers d1).1))
          "enriched_from_cache" (.bool true),
        (enrich_media_data providers cache t0 persist d1).2.1, 0) := by
  rcases htp : try_providers providers d1 with ⟨r, en, n⟩
  have hen : en = true := by
    rw [htp] at henr
    exact henr
  subst hen
  have hc1 : (enrich_media_data providers cache t0 persist d1).2.1 =
      cache_set cache key (build_cache_data r) (t0 + persist) := by
    unfold enrich_media_data
    rw [hkey1]
    simp only [hmiss, htp]
    simp
  have hget2 : cache_get (cache_set cache key (build_cache_data r) (t0 + persist))
      key t1 = some (build_cache_data r) := by
    unfold cache_set cache_get
    rw [List.find?_append]
    have hl : (cache.filter fun e => !(e.1 == key)).find?
        (fun e => e.1 == key && decide (t1 < e.2.2)) = Option.none := by
      rw [List.find?_eq_none]
      intro x hx
      have hx2 := (List.mem_filter.mp hx).2
      simp only [Bool.not_eq_eq_eq_not, Bool.not_true, beq_eq_false_iff_ne] at hx2
      simp [hx2]
    rw [hl]
    simp [hfresh]
  have hhit : cacheHit (cache_get
      (cache_set cache key (build_cache_data r) (t0 + persist)) key t1) =
      some (build_cache_data r) := by
    rw [hget2]
    simp [cacheHit, build_cache_data_not_empty]
  rw [hc1]
  unfold enrich_media_data
  rw [hkey2]
  simp [hhit]

/-- C5 witness: a concrete enriching provider; the second call merges
the stored allow-listed fields with zero provider invocations. -/
theorem enrich_cache_short_circuit_witness :
    enrich_media_data []
        (enrich_media_data
          [⟨1, "tmdb", fun d => Except.ok (dictSet d "tmdb_enriched" (.bool true))⟩]
          [] 0 604800 [("item_name", Val.str "Show")]).2.1
        100 604800 [("item_name", Val.str "Show")] =
      (dictSet (dictUpdate [("item_name", Val.str "Show")]
          (build_cache_data
            (try_providers
              [⟨1, "tmdb", fun d => Except.ok (dictSet d "tmdb_enriched" (.bool true))⟩]
              [("item_name", Val.str "Show")]).1))
          "enriched_from_cache" (.bool true),
        (enrich_media_data
          [⟨1, "tmdb", fun d => Except.ok (dictSet d "tmdb_enriched" (.bool true))⟩]
          [] 0 604800 [("item_name", Val.str "Show")]).2.1, 0) :=
  enrich_cache_short_circuit
    [⟨1, "tmdb", fun d => Except.ok (dictSet d "tmdb_enriched" (.bool true))⟩]
    [] [] 0 100 604800 [("item_name", Val.str "Show")]
    [("item_name", Val.str "Show")] (.nameHash "show__")
    (by decide) (by decide) (by decide) (by decide) (by decide)

/-! ## C6: only allow-listed fields are persisted -/

theorem build_cache_data_no_image_url (r : PyDict) :
    dictLookup (build_cache_data r) "image_url" = Option.none := by
  simp [build_cache_data, dictLookup]

/-- C6: every entry of the cache after an `enrich_media_data` call either
was already there, or is the freshly persisted entry, whose stored dict
has exactly the allow-listed keys `overview`, `tmdb_id`, `bgm_id`,
`tmdb_enriched`, `bgm_enriched`, `year` — and in particular contains no
`image_url`, whatever the enriched result held. -/
theorem enrich_cache_persists_allowlist_only (providers : List Provider)
    (cache : List CacheEntry) (now persist : Int) (d : PyDict) (e : CacheEntry)
    (hmem : e ∈ (enrich_media_data providers cache now persist d).2.1) :
    e ∈ cache ∨
      (dictKeys e.2.1 =
        ["overview", "tmdb_id", "bgm_id", "tmdb_enriched", "bgm_enriched", "year"] ∧
       dictLookup e.2.1 "image_url" = Option.none) := by
  unfold enrich_media_data at hmem
  cases hk : generate_cache_key d with
  | none =>
      rw [hk] at hmem
      exact Or.inl hmem
  | some key =>
      rw [hk] at hmem
      cases hh : cacheHit (cache_get cache key now) with
      | some cd =>
          simp only [hh] at hmem
          exact Or.inl hmem
      | none =>
          rcases htp : try_providers providers d with ⟨r, en, n⟩
          simp only [hh, htp] at hmem
          cases en with
          | false =>
              simp at hmem
              exact Or.inl hmem
          | true =>
              simp at hmem
              unfold cache_set at hmem
              rcases List.mem_append.mp hmem with hm | hm
              · exact Or.inl (List.mem_filter.mp hm).1
              · rcases List.mem_singleton.mp hm with rfl
                refine Or.inr ⟨rfl, ?_⟩
                exact build_cache_data_no_image_url r

/-- C6 witness: a provider that returns an `image_url` still produces a
cache entry without one. -/
theorem enrich_cache_persists_allowlist_only_witness :
    ((.nameHash "show__" : CacheKey),
      build_cache_data
        (dictSet [("item_name", Val.str "Show")] "image_url" (.str "http://x/p.png")),
      (604800 : Int)) ∈ [] ∨
      (dictKeys (build_cache_data
          (dictSet [("item_name", Val.str "Show")] "image_url" (.str "http://x/p.png"))) =
        ["overview", "tmdb_id", "bgm_id", "tmdb_enriched", "bgm_enriched", "year"] ∧
       dictLookup (build_cache_data
          (dictSet [("item_name", Val.str "Show")] "image_url" (.str "http://x/p.png")))
          "image_url" = Option.none) :=
  enrich_cache_persists_allowlist_only
    [⟨1, "tmdb", fun d => Except.ok (dictSet d "image_url" (.str "http://x/p.png"))⟩]
    [] 0 604800 [("item_name", Val.str "Show")] _ (by decide)
